import Mathlib

/-!
Shallow embedding of the two voice-dictation toggle programs
(`record_fireworks.py`, the batch variant, and `record_assembly.py`, the
streaming variant).  Filesystem state (lock record, status sentinel,
audio artifact) and in-process state are explicit records; every external
side effect (process spawn, signal, notification, keystroke injection,
HTTP request, stream open/close) is an entry in an effect trace.  External
nondeterminism (whether the spawned capture child dies immediately, the
HTTP outcome, which process ids are alive) is supplied by oracle records.
Exception text logged by the programs is abbreviated to the exception
kind; the control flow of every try/except is translated faithfully.
-/

namespace VoiceToggle

/-- Observable side effects of one invocation, in emission order. -/
inductive Effect where
  | notify (title msg : String)
  | log (msg : String)
  | spawnArecord (device file : String) (duration : Nat)
  | kill (pid : Int)
  | killallUSR1
  | xdotoolType (text : String)
  | transcribeRequest
  | connectTranscriber
  | openMicStream
  | closeTranscriber
  | closeStream
  deriving DecidableEq

/-- JSON body of the transcription HTTP response: either not valid JSON, or
an object whose `text` field may be absent. -/
inductive JsonBody where
  | invalid
  | obj (textField : Option String)
  deriving DecidableEq

/-- Outcome of the `requests.post` call in `transcribe_audio`: a response
with a status code and body, a `Timeout`, or another `RequestException`. -/
inductive HttpResult where
  | response (status : Nat) (body : JsonBody)
  | timeout
  | reqError (msg : String)
  deriving DecidableEq

/-- `requests.Response.raise_for_status` raises `HTTPError` exactly when
`400 <= status_code < 600`. -/
def raiseForStatus (status : Nat) : Bool :=
  decide (400 ≤ status) && decide (status < 600)

/-- Python string whitespace for `str.strip()`. -/
def isPyWhitespace (c : Char) : Bool :=
  c = ' ' || c = '\t' || c = '\n' || c = '\r' || c = '\x0b' || c = '\x0c'

/-- Python `str.strip()`: drop leading and trailing whitespace. -/
def pyStrip (s : String) : String :=
  ((s.toList.dropWhile isPyWhitespace).reverse.dropWhile isPyWhitespace).reverse.asString

/-- Decimal digit value of a character, `none` for a non-digit. -/
def charDigit (c : Char) : Option Nat :=
  if '0' ≤ c ∧ c ≤ '9' then some (c.toNat - '0'.toNat) else none

/-- Accumulate a nonempty all-digit character list into a number. -/
def parseNatAux : List Char → Nat → Option Nat
  | [], acc => some acc
  | c :: cs, acc =>
      match charDigit c with
      | none => none
      | some d => parseNatAux cs (acc * 10 + d)

/-- Python `int(s)`: after stripping, an optional sign followed by a
nonempty digit string; anything else raises `ValueError` (`none` here). -/
def pyInt (s : String) : Option Int :=
  match (pyStrip s).toList with
  | [] => none
  | '-' :: cs =>
      if cs = [] then none
      else (parseNatAux cs 0).map (fun n => -(n : Int))
  | '+' :: cs =>
      if cs = [] then none
      else (parseNatAux cs 0).map (fun n => (n : Int))
  | cs => (parseNatAux cs 0).map (fun n => (n : Int))

/-- Python `int(content.strip())` applied to the lock record content. -/
def parsePid (content : String) : Option Int :=
  pyInt content

/-- Filesystem state of the batch variant: lock record (`~/.recordpid`)
content, status sentinel (`/tmp/voice_typing_active`) content, and the
audio artifact (`recording.wav`) size in bytes, each `none` when the file
is absent. -/
structure FwState where
  pidFile : Option String
  i3File : Option String
  recFile : Option Nat
  deriving DecidableEq

/-- External nondeterminism for one batch-variant invocation: whether the
`arecord` child has already exited at the post-spawn poll (and its stderr),
the child pid otherwise, the set of live process ids, and the HTTP
outcome. -/
structure FwOracle where
  spawnDies : Bool
  spawnErrMsg : String
  spawnPid : Nat
  live : List Int
  http : HttpResult

/-- `AudioRecorder.transcribe_audio`: posts the audio file with a 30 s
timeout; `Timeout` and `RequestException` (which `raise_for_status` and the
JSON decode error raise) are caught and notified, returning `None`; on
success returns the stripped `text` field, `""` when absent. -/
def transcribe_audio (http : HttpResult) : Option String × List Effect :=
  let pre : List Effect :=
    [.log "Starting transcription",
     .notify "Voice Typing" "Transcribing audio...",
     .transcribeRequest]
  match http with
  | .timeout =>
      (none, pre ++ [.log "Transcription timed out after 30 seconds",
                     .notify "Voice Typing Error"
                       "Transcription timed out after 30 seconds"])
  | .reqError msg =>
      (none, pre ++ [.log ("Transcription failed: " ++ msg),
                     .notify "Voice Typing Error"
                       ("Transcription failed: " ++ msg)])
  | .response status body =>
      if raiseForStatus status then
        let msg := "Transcription failed: " ++ toString status ++ " error"
        (none, pre ++ [.log msg, .notify "Voice Typing Error" msg])
      else
        match body with
        | .invalid =>
            let msg := "Transcription failed: JSONDecodeError"
            (none, pre ++ [.log msg, .notify "Voice Typing Error" msg])
        | .obj tf =>
            (some (pyStrip (tf.getD "")), pre ++ [.log "Transcription completed"])

/-- `AudioRecorder.write_transcript`: returns on empty text, otherwise
types the text via `xdotool`. -/
def write_transcript (text : String) : List Effect :=
  if text = "" then []
  else [.log "Writing transcript", .xdotoolType text, .log "Transcript written"]

/-- The `int(...)` / `os.kill(pid, SIGTERM)` block of
`AudioRecorder.stop_recording`: `ProcessLookupError` and `ValueError` are
caught and logged as warnings. -/
def fwKillRecorded (live : List Int) (content : String) : List Effect :=
  match parsePid content with
  | none => [.log "Warning: ValueError"]
  | some pid =>
      if pid ∈ live then
        [.kill pid, .log ("Sent SIGTERM to process " ++ toString pid)]
      else [.log "Warning: ProcessLookupError"]

/-- The audio-artifact block of `AudioRecorder.stop_recording`: if the
recording file exists and is non-empty, transcribe it and type the result
when truthy; if empty, notify an error; in either case it is unlinked. -/
def fw_stop_tail (recFile : Option Nat) (http : HttpResult) : List Effect :=
  match recFile with
  | none => []
  | some size =>
      if 0 < size then
        let p := transcribe_audio http
        p.2 ++ (match p.1 with
                | some t => if t = "" then [] else write_transcript t
                | none => [])
      else [.log "Error: Recording file is empty",
            .notify "Voice Typing Error" "Recording file is empty"]

/-- `AudioRecorder.stop_recording`: early return when the lock record is
absent; otherwise signal the recorded pid (warnings tolerated), unlink the
lock record and sentinel (`missing_ok`), re-signal i3status, then handle
the audio artifact. -/
def fw_stop_recording (s : FwState) (o : FwOracle) : FwState × List Effect :=
  match s.pidFile with
  | none => (s, [])
  | some content =>
      (⟨none, none, none⟩,
       (Effect.log "Stopping recording" ::
          fwKillRecorded o.live content ++ [Effect.killallUSR1])
         ++ fw_stop_tail s.recFile o.http)

/-- `AudioRecorder.start_recording`: spawn `arecord`; if the child has
already exited at the 0.1 s poll, notify the failure and return without
writing any file; otherwise write the lock record and sentinel, re-signal
i3status and notify. -/
def fw_start_recording (s : FwState) (o : FwOracle) : FwState × List Effect :=
  let spawn := Effect.spawnArecord "hw:0,6" "recording.wav" 120
  if o.spawnDies then
    (s, [.log "Starting recording process", spawn,
         .log ("Error starting recording: " ++ o.spawnErrMsg),
         .notify "Voice Typing Error"
           ("Failed to start recording: " ++ o.spawnErrMsg)])
  else
    ({ s with pidFile := some (toString o.spawnPid),
              i3File := some "recording🎤" },
     [.log "Starting recording process", spawn, .killallUSR1,
      .log "Recording started",
      .notify "Voice Typing" "Recording started. Speak now."])

/-- `main` of the batch variant: stop when the lock record exists,
start otherwise. -/
def fw_main (s : FwState) (o : FwOracle) : FwState × List Effect :=
  if s.pidFile.isSome then fw_stop_recording s o else fw_start_recording s o

/-- State of the streaming variant: lock record (`~/.assemblypid`) and
sentinel contents, plus the `TranscriptionManager` fields `current_text`,
`is_running` and whether `transcriber` / `stream` handles are set. -/
structure AsmState where
  pidFile : Option String
  i3File : Option String
  current_text : String
  is_running : Bool
  hasTranscriber : Bool
  hasStream : Bool
  deriving DecidableEq

/-- One realtime transcript event: its text and whether it is a
`RealtimeFinalTranscript` (otherwise a partial transcript). -/
structure RtEvent where
  text : String
  isFinal : Bool
  deriving DecidableEq

/-- How the blocking wait loop of the streaming `main` ends: console
interrupt, or the remote session closing (the `on_close` callback). -/
inductive SessionOutcome where
  | interrupted
  | closedRemotely
  deriving DecidableEq

/-- External nondeterminism for one streaming-variant invocation: whether
`transcriber.connect()` raises (and the message), this process's pid, the
live pid set, and how the wait loop ends. -/
structure AsmOracle where
  connectFails : Bool
  connectErrMsg : String
  ownPid : Nat
  live : List Int
  outcome : SessionOutcome

/-- `TranscriptionManager.on_data`: return on empty text; a final
transcript updates `current_text` and is typed with a trailing newline;
a partial transcript only updates `current_text`. -/
def on_data (s : AsmState) (e : RtEvent) : AsmState × List Effect :=
  if e.text = "" then (s, [])
  else if e.isFinal then
    ({ s with current_text := e.text },
     [.xdotoolType (e.text ++ "\n"), .log ("Final transcript: " ++ e.text)])
  else
    ({ s with current_text := e.text }, [.log ("Partial: " ++ e.text)])

/-- An ordered sequence of transcript events fed through `on_data`. -/
def processEvents : AsmState → List RtEvent → AsmState × List Effect
  | s, [] => (s, [])
  | s, e :: es =>
      let p := on_data s e
      let q := processEvents p.1 es
      (q.1, p.2 ++ q.2)

/-- `TranscriptionManager.on_close`: clears `is_running`. -/
def on_close (s : AsmState) : AsmState × List Effect :=
  ({ s with is_running := false }, [.log "Session closed"])

/-- `TranscriptionManager.stop_recording`: clear `is_running`, close the
transcriber and stream when set (errors swallowed), unlink the lock record
and sentinel (`missing_ok`), re-signal i3status and notify. -/
def asm_stop_recording (s : AsmState) : AsmState × List Effect :=
  let e1 : List Effect := if s.hasTranscriber then [.closeTranscriber] else []
  let e2 : List Effect := if s.hasStream then [.closeStream] else []
  ({ s with is_running := false, pidFile := none, i3File := none },
   Effect.log "Stopping transcription" :: e1 ++ e2 ++
     [Effect.killallUSR1,
      .notify "Voice Typing" "Transcription stopped",
      .log "Transcription stopped"])

/-- `TranscriptionManager.start_recording`: create the transcriber and
connect; when `connect()` raises, the exception handler notifies the
failure and invokes `stop_recording` (the lock record was never written);
otherwise open the microphone stream, write the lock record with this
process's pid, write the sentinel, re-signal i3status, set `is_running`
and notify. -/
def asm_start_recording (s : AsmState) (o : AsmOracle) : AsmState × List Effect :=
  if o.connectFails then
    let p := asm_stop_recording { s with hasTranscriber := true }
    (p.1,
     [Effect.log "Starting transcription", .connectTranscriber,
      .log ("Error starting transcription: " ++ o.connectErrMsg),
      .notify "Voice Typing Error"
        ("Failed to start transcription: " ++ o.connectErrMsg)] ++ p.2)
  else
    ({ s with hasTranscriber := true, hasStream := true,
              pidFile := some (toString o.ownPid),
              i3File := some "recording🎤",
              is_running := true },
     [.log "Starting transcription", .connectTranscriber, .openMicStream,
      .killallUSR1,
      .notify "Voice Typing" "Real-time transcription started",
      .log "Transcription started successfully"])

/-- The `int(...)` / `os.kill(pid, SIGTERM)` block of the streaming
`main`'s stop branch: `ProcessLookupError` and `ValueError` are caught and
logged as warnings. -/
def asmKillRecorded (live : List Int) (content : String) : List Effect :=
  match parsePid content with
  | none => [.log "Warning when stopping: ValueError"]
  | some pid =>
      if pid ∈ live then [.kill pid]
      else [.log "Warning when stopping: ProcessLookupError"]

/-- The stop branch of the streaming `main`: signal the recorded pid
(warnings tolerated), then `stop_recording`. -/
def asm_stop_invocation (s : AsmState) (o : AsmOracle) (content : String) :
    AsmState × List Effect :=
  let p := asm_stop_recording s
  (p.1, asmKillRecorded o.live content ++ p.2)

/-- The start branch of the streaming `main`: `start_recording`, then the
`while manager.is_running: sleep(0.1)` wait loop, which ends either by a
`KeyboardInterrupt` (handled by `stop_recording`) or by the session
closing remotely (the `on_close` callback clearing `is_running`). -/
def asm_start_invocation (s : AsmState) (o : AsmOracle) : AsmState × List Effect :=
  let p := asm_start_recording s o
  if p.1.is_running then
    match o.outcome with
    | .interrupted =>
        let q := asm_stop_recording p.1
        (q.1, p.2 ++ q.2)
    | .closedRemotely =>
        let q := on_close p.1
        (q.1, p.2 ++ q.2)
  else p

/-- `main` of the streaming variant: stop when the lock record exists,
start otherwise. -/
def asm_main (s : AsmState) (o : AsmOracle) : AsmState × List Effect :=
  match s.pidFile with
  | some content => asm_stop_invocation s o content
  | none => asm_start_invocation s o

/-- Number of keystroke-injection (`xdotool type`) effects in a trace. -/
def injectCount (l : List Effect) : Nat :=
  (l.filter (fun e => match e with | .xdotoolType _ => true | _ => false)).length

/-- Number of transcription HTTP attempts in a trace. -/
def transcribeCount (l : List Effect) : Nat :=
  (l.filter (fun e => match e with | .transcribeRequest => true | _ => false)).length

/-- Number of capture-session starts (an `arecord` spawn or a streaming
transcriber connect) in a trace. -/
def captureStartCount (l : List Effect) : Nat :=
  (l.filter (fun e => match e with
    | .spawnArecord _ _ _ => true
    | .connectTranscriber => true
    | _ => false)).length

/-- Whether a log message is a warning line (begins with "Warning"). -/
def isWarningText (m : String) : Bool :=
  m.toList.take 7 == "Warning".toList

/-- Whether a trace contains a warning log line. -/
def hasWarningLog (l : List Effect) : Bool :=
  l.any (fun e => match e with
    | .log m => isWarningText m
    | _ => false)

theorem injectCount_append (a b : List Effect) :
    injectCount (a ++ b) = injectCount a + injectCount b := by
  simp [injectCount, List.filter_append]

theorem transcribeCount_append (a b : List Effect) :
    transcribeCount (a ++ b) = transcribeCount a + transcribeCount b := by
  simp [transcribeCount, List.filter_append]

theorem captureStartCount_append (a b : List Effect) :
    captureStartCount (a ++ b) = captureStartCount a + captureStartCount b := by
  simp [captureStartCount, List.filter_append]

theorem hasWarningLog_append (a b : List Effect) :
    hasWarningLog (a ++ b) = (hasWarningLog a || hasWarningLog b) := by
  simp [hasWarningLog, List.any_append]

theorem transcribe_audio_counts (h : HttpResult) :
    transcribeCount (transcribe_audio h).2 = 1 ∧
    injectCount (transcribe_audio h).2 = 0 ∧
    captureStartCount (transcribe_audio h).2 = 0 := by
  cases h with
  | timeout =>
      simp [transcribe_audio, transcribeCount, injectCount, captureStartCount]
  | reqError m =>
      simp [transcribe_audio, transcribeCount, injectCount, captureStartCount]
  | response st b =>
      by_cases hrs : raiseForStatus st = true
      · simp [transcribe_audio, hrs, transcribeCount, injectCount, captureStartCount]
      · cases b <;>
          simp [transcribe_audio, hrs, transcribeCount, injectCount, captureStartCount]

theorem write_transcript_counts (t : String) :
    transcribeCount (write_transcript t) = 0 ∧
    captureStartCount (write_transcript t) = 0 := by
  by_cases ht : t = "" <;>
    simp [write_transcript, ht, transcribeCount, captureStartCount]

theorem fwKillRecorded_counts (live : List Int) (c : String) :
    transcribeCount (fwKillRecorded live c) = 0 ∧
    injectCount (fwKillRecorded live c) = 0 ∧
    captureStartCount (fwKillRecorded live c) = 0 := by
  unfold fwKillRecorded
  cases parsePid c with
  | none => simp [transcribeCount, injectCount, captureStartCount]
  | some p =>
      by_cases hp : p ∈ live <;>
        simp [hp, transcribeCount, injectCount, captureStartCount]

theorem asmKillRecorded_counts (live : List Int) (c : String) :
    injectCount (asmKillRecorded live c) = 0 ∧
    captureStartCount (asmKillRecorded live c) = 0 := by
  unfold asmKillRecorded
  cases parsePid c with
  | none => simp [injectCount, captureStartCount]
  | some p =>
      by_cases hp : p ∈ live <;> simp [hp, injectCount, captureStartCount]

theorem fw_stop_tail_counts (r : Option Nat) (h : HttpResult) :
    transcribeCount (fw_stop_tail r h) ≤ 1 ∧
    captureStartCount (fw_stop_tail r h) = 0 := by
  cases r with
  | none => simp [fw_stop_tail, transcribeCount, captureStartCount]
  | some size =>
      by_cases hs : 0 < size
      · simp only [fw_stop_tail, hs, if_pos]
        rw [transcribeCount_append, captureStartCount_append]
        have h1 := transcribe_audio_counts h
        constructor
        · have h2 : transcribeCount
              (match (transcribe_audio h).1 with
               | some t => if t = "" then [] else write_transcript t
               | none => []) = 0 := by
            cases (transcribe_audio h).1 with
            | none => simp [transcribeCount]
            | some t =>
                by_cases ht : t = ""
                · simp [ht, transcribeCount]
                · simpa [ht] using (write_transcript_counts t).1
          omega
        · have h2 : captureStartCount
              (match (transcribe_audio h).1 with
               | some t => if t = "" then [] else write_transcript t
               | none => []) = 0 := by
            cases (transcribe_audio h).1 with
            | none => simp [captureStartCount]
            | some t =>
                by_cases ht : t = ""
                · simp [ht, captureStartCount]
                · simpa [ht] using (write_transcript_counts t).2
          omega
      · simp [fw_stop_tail, hs, transcribeCount, captureStartCount]

theorem captureStartCount_cons_log (m : String) (l : List Effect) :
    captureStartCount (Effect.log m :: l) = captureStartCount l := by
  simp [captureStartCount]

theorem fw_stop_recording_captureStart (s : FwState) (o : FwOracle) :
    captureStartCount (fw_stop_recording s o).2 = 0 := by
  unfold fw_stop_recording
  cases s.pidFile with
  | none => simp [captureStartCount]
  | some c =>
      simp only
      rw [captureStartCount_append, captureStartCount_append,
          captureStartCount_cons_log, (fwKillRecorded_counts o.live c).2.2,
          (fw_stop_tail_counts s.recFile o.http).2]
      simp [captureStartCount]

theorem asm_stop_recording_captureStart (s : AsmState) :
    captureStartCount (asm_stop_recording s).2 = 0 := by
  unfold asm_stop_recording
  by_cases h1 : s.hasTranscriber <;> by_cases h2 : s.hasStream <;>
    simp [h1, h2, captureStartCount]

theorem asm_stop_invocation_captureStart (s : AsmState) (o : AsmOracle) (c : String) :
    captureStartCount (asm_stop_invocation s o c).2 = 0 := by
  unfold asm_stop_invocation
  simp only
  rw [captureStartCount_append]
  rw [(asmKillRecorded_counts o.live c).2, asm_stop_recording_captureStart]

theorem transcribeCount_cons_log (m : String) (l : List Effect) :
    transcribeCount (Effect.log m :: l) = transcribeCount l := by
  simp [transcribeCount]

theorem injectCount_cons_log (m : String) (l : List Effect) :
    injectCount (Effect.log m :: l) = injectCount l := by
  simp [injectCount]

theorem hasWarningLog_cons (x : Effect) (l : List Effect) :
    hasWarningLog (x :: l) =
      ((match x with | .log m => isWarningText m | _ => false)
        || hasWarningLog l) := by
  simp [hasWarningLog]

theorem fwKillRecorded_warning (live : List Int) (c : String)
    (h : parsePid c = none ∨ ∃ q, parsePid c = some q ∧ q ∉ live) :
    hasWarningLog (fwKillRecorded live c) = true := by
  rcases h with h | ⟨q, h, hq⟩
  · simp only [fwKillRecorded, h]
    decide
  · simp only [fwKillRecorded, h]
    rw [if_neg hq]
    decide

theorem asmKillRecorded_warning (live : List Int) (c : String)
    (h : parsePid c = none ∨ ∃ q, parsePid c = some q ∧ q ∉ live) :
    hasWarningLog (asmKillRecorded live c) = true := by
  rcases h with h | ⟨q, h, hq⟩
  · simp only [asmKillRecorded, h]
    decide
  · simp only [asmKillRecorded, h]
    rw [if_neg hq]
    decide

/-- C10: a streaming transcript event whose text is empty is ignored by
`on_data`: the state (including `current_text`) is unchanged and no effect
is emitted, even when the event is FINAL. -/
theorem empty_event_ignored (s : AsmState) (e : RtEvent) (h : e.text = "") :
    on_data s e = (s, []) := by
  simp [on_data, h]

theorem empty_event_ignored_witness :
    on_data ⟨none, none, "prev", true, true, true⟩ ⟨"", true⟩ =
      (⟨none, none, "prev", true, true, true⟩, []) :=
  empty_event_ignored ⟨none, none, "prev", true, true, true⟩ ⟨"", true⟩ rfl

/-- C3: when the spawned `arecord` child has already exited at the
post-spawn poll, `start_recording` notifies the user of the failure and
returns with the state completely unchanged — in particular neither the
lock record nor the status sentinel is written, so a capture-start failure
cannot leave a stale lock. -/
theorem capture_start_failure_no_lock (s : FwState) (o : FwOracle)
    (h : o.spawnDies = true) :
    (fw_start_recording s o).1 = s ∧
    Effect.notify "Voice Typing Error"
        ("Failed to start recording: " ++ o.spawnErrMsg)
      ∈ (fw_start_recording s o).2 := by
  simp [fw_start_recording, h]

theorem capture_start_failure_no_lock_witness :
    (fw_start_recording ⟨none, none, none⟩
        ⟨true, "device busy", 0, [], HttpResult.timeout⟩).1 = ⟨none, none, none⟩ ∧
    Effect.notify "Voice Typing Error" ("Failed to start recording: " ++ "device busy")
      ∈ (fw_start_recording ⟨none, none, none⟩
          ⟨true, "device busy", 0, [], HttpResult.timeout⟩).2 :=
  capture_start_failure_no_lock ⟨none, none, none⟩
    ⟨true, "device busy", 0, [], HttpResult.timeout⟩ rfl

/-- C9 counterexample: on a 2xx response whose `text` field is `"hi "`,
`transcribe_audio` returns the stripped `"hi"`, not exactly the field
value, refuting "returns exactly the value of its `text` field". -/
theorem transcript_field_counterexample :
    (transcribe_audio (.response 200 (.obj (some "hi ")))).1 ≠ some "hi " := by
  decide

/-- C9 (amended): on a 2xx response with a valid JSON body,
`transcribe_audio` returns the whitespace-stripped value of the `text`
field, and the empty string when that field is absent. -/
theorem transcript_field_extraction (st : Nat) (tf : Option String)
    (h1 : 200 ≤ st) (h2 : st < 300) :
    (transcribe_audio (.response st (.obj tf))).1 = some (pyStrip (tf.getD "")) ∧
    (transcribe_audio (.response st (.obj none))).1 = some "" := by
  have hrs : raiseForStatus st = false := by
    simp only [raiseForStatus, Bool.and_eq_false_iff, decide_eq_false_iff_not]
    omega
  constructor
  · simp [transcribe_audio, hrs]
  · simp [transcribe_audio, hrs]
    decide

theorem transcript_field_extraction_witness :
    (transcribe_audio (.response 200 (.obj (some " hello ")))).1 =
        some (pyStrip ((some " hello ").getD "")) ∧
    (transcribe_audio (.response 200 (.obj none))).1 = some "" :=
  transcript_field_extraction 200 (some " hello ") (by decide) (by decide)

/-- C2 counterexample: a completed run of the batch `stop_recording` on a
state with no lock record but a present status sentinel returns early and
leaves the sentinel in place, refuting the unconditional claim. -/
theorem teardown_cleanup_counterexample :
    (fw_stop_recording ⟨none, some "recording🎤", none⟩
        ⟨false, "", 0, [], HttpResult.timeout⟩).1.i3File ≠ none := by
  decide

/-- C2 (amended): after a completed `stop_recording`, neither the lock
record nor the status sentinel exists — unconditionally in the streaming
variant, and in the batch variant whenever the lock record existed at
entry (otherwise the batch `stop_recording` returns before touching the
sentinel). -/
theorem teardown_cleanup_invariant (s : FwState) (o : FwOracle) (t : AsmState) :
    (s.pidFile.isSome = true →
       (fw_stop_recording s o).1.pidFile = none ∧
       (fw_stop_recording s o).1.i3File = none) ∧
    ((asm_stop_recording t).1.pidFile = none ∧
     (asm_stop_recording t).1.i3File = none) := by
  constructor
  · intro h
    rcases hs : s.pidFile with _ | c
    · rw [hs] at h
      simp at h
    · simp [fw_stop_recording, hs]
  · simp [asm_stop_recording]

theorem teardown_cleanup_invariant_witness :
    (fw_stop_recording ⟨some "314", some "recording🎤", some 0⟩
        ⟨false, "", 0, [], HttpResult.timeout⟩).1.pidFile = none ∧
    (fw_stop_recording ⟨some "314", some "recording🎤", some 0⟩
        ⟨false, "", 0, [], HttpResult.timeout⟩).1.i3File = none :=
  (teardown_cleanup_invariant ⟨some "314", some "recording🎤", some 0⟩
      ⟨false, "", 0, [], HttpResult.timeout⟩
      ⟨some "314", some "x", "", true, true, true⟩).1 (by decide)

/-- C1: the toggle entry point (`main`, either variant): when the lock
record exists the invocation is exactly the stop path and its trace
contains no capture start (no `arecord` spawn and no transcriber connect),
so no second capture session is started; when the lock record is absent
the invocation is exactly the start path. -/
theorem toggle_mutual_exclusion (s : FwState) (o : FwOracle)
    (t : AsmState) (p : AsmOracle) :
    (s.pidFile.isSome = true →
        fw_main s o = fw_stop_recording s o ∧
        captureStartCount (fw_main s o).2 = 0) ∧
    (s.pidFile = none → fw_main s o = fw_start_recording s o) ∧
    (∀ c, t.pidFile = some c →
        asm_main t p = asm_stop_invocation t p c ∧
        captureStartCount (asm_main t p).2 = 0) ∧
    (t.pidFile = none → asm_main t p = asm_start_invocation t p) := by
  refine ⟨fun h => ⟨?_, ?_⟩, fun h => ?_, fun c hc => ⟨?_, ?_⟩, fun h => ?_⟩
  · simp [fw_main, h]
  · simp [fw_main, h, fw_stop_recording_captureStart]
  · simp [fw_main, h]
  · simp [asm_main, hc]
  · simp [asm_main, hc, asm_stop_invocation_captureStart]
  · simp [asm_main, h]

theorem toggle_mutual_exclusion_witness :
    fw_main ⟨some "99", none, none⟩ ⟨false, "", 0, [], HttpResult.timeout⟩ =
        fw_stop_recording ⟨some "99", none, none⟩
          ⟨false, "", 0, [], HttpResult.timeout⟩ ∧
    captureStartCount (fw_main ⟨some "99", none, none⟩
        ⟨false, "", 0, [], HttpResult.timeout⟩).2 = 0 :=
  (toggle_mutual_exclusion ⟨some "99", none, none⟩
      ⟨false, "", 0, [], HttpResult.timeout⟩
      ⟨none, none, "", false, false, false⟩
      ⟨false, "", 1, [], SessionOutcome.interrupted⟩).1 (by decide)

/-- C8 counterexample: with no lock record but a stray status sentinel,
the streaming teardown deletes the sentinel, so invoking it in a no-lock
state is not file-preserving, refuting "changes no files" as stated. -/
theorem teardown_noop_counterexample :
    (asm_stop_recording ⟨none, some "recording🎤", "", false, false, false⟩).1.i3File
      ≠ (AsmState.mk none (some "recording🎤") "" false false false).i3File := by
  decide

/-- C8 (amended): teardown is idempotent on state in both variants; the
batch stop with no lock record is a complete no-op; and the streaming stop
invoked with neither lock record nor sentinel present changes no file —
it only clears `is_running` — raises nothing, and emits no notification
other than the explicitly specified "Transcription stopped" one. -/
theorem teardown_idempotent (s : FwState) (o o2 : FwOracle) (t : AsmState) :
    fw_stop_recording (fw_stop_recording s o).1 o2 = ((fw_stop_recording s o).1, []) ∧
    (asm_stop_recording (asm_stop_recording t).1).1 = (asm_stop_recording t).1 ∧
    (s.pidFile = none → fw_stop_recording s o = (s, [])) ∧
    (t.pidFile = none → t.i3File = none →
       (asm_stop_recording t).1 = { t with is_running := false } ∧
       ∀ ti m, Effect.notify ti m ∈ (asm_stop_recording t).2 →
         ti = "Voice Typing" ∧ m = "Transcription stopped") := by
  obtain ⟨pf, i3, ct, ir, htr, hst⟩ := t
  refine ⟨?_, ?_, fun h => ?_, fun hp hi => ⟨?_, ?_⟩⟩
  · rcases hs : s.pidFile with _ | c
    · have h1 : (fw_stop_recording s o).1 = s := by
        simp [fw_stop_recording, hs]
      rw [h1]
      simp [fw_stop_recording, hs]
    · have h1 : (fw_stop_recording s o).1 = ⟨none, none, none⟩ := by
        simp [fw_stop_recording, hs]
      rw [h1]
      simp [fw_stop_recording]
  · simp [asm_stop_recording]
  · simp [fw_stop_recording, h]
  · simp only at hp hi
    subst hp hi
    simp [asm_stop_recording]
  · intro ti m hm
    by_cases h1 : htr = true <;> by_cases h2 : hst = true <;>
      · simp [asm_stop_recording, h1, h2] at hm
        simpa using hm

theorem teardown_idempotent_witness :
    fw_stop_recording
        (fw_stop_recording ⟨none, none, none⟩
            ⟨false, "", 0, [], HttpResult.timeout⟩).1
        ⟨false, "", 0, [], HttpResult.timeout⟩ =
      ((fw_stop_recording ⟨none, none, none⟩
          ⟨false, "", 0, [], HttpResult.timeout⟩).1, []) ∧
    (asm_stop_recording
        (asm_stop_recording ⟨none, none, "", true, true, true⟩).1).1 =
      (asm_stop_recording ⟨none, none, "", true, true, true⟩).1 ∧
    fw_stop_recording ⟨none, none, none⟩
        ⟨false, "", 0, [], HttpResult.timeout⟩ = (⟨none, none, none⟩, []) ∧
    (asm_stop_recording ⟨none, none, "", true, true, true⟩).1 =
        { AsmState.mk none none "" true true true with is_running := false } ∧
    ∀ ti m, Effect.notify ti m
        ∈ (asm_stop_recording ⟨none, none, "", true, true, true⟩).2 →
      ti = "Voice Typing" ∧ m = "Transcription stopped" := by
  have h := teardown_idempotent ⟨none, none, none⟩
    ⟨false, "", 0, [], HttpResult.timeout⟩
    ⟨false, "", 0, [], HttpResult.timeout⟩
    ⟨none, none, "", true, true, true⟩
  exact ⟨h.1, h.2.1, h.2.2.1 rfl, (h.2.2.2 rfl rfl).1, (h.2.2.2 rfl rfl).2⟩

/-- C4: a batch stop invocation in which the lock record and the recorded
audio file both exist attempts transcription at most once, and the audio
file is deleted afterward regardless of the transcription outcome. -/
theorem audio_consumed_once (s : FwState) (o : FwOracle) (c : String) (n : Nat)
    (hp : s.pidFile = some c) (_hr : s.recFile = some n) :
    transcribeCount (fw_stop_recording s o).2 ≤ 1 ∧
    (fw_stop_recording s o).1.recFile = none := by
  constructor
  · simp only [fw_stop_recording, hp]
    have h4 : transcribeCount [Effect.killallUSR1] = 0 := rfl
    rw [transcribeCount_append, transcribeCount_append, transcribeCount_cons_log,
        (fwKillRecorded_counts o.live c).1, h4]
    simpa using (fw_stop_tail_counts s.recFile o.http).1
  · simp [fw_stop_recording, hp]

theorem audio_consumed_once_witness :
    transcribeCount (fw_stop_recording ⟨some "42", some "recording🎤", some 2048⟩
        ⟨false, "", 0, [], HttpResult.reqError "500 Server Error"⟩).2 ≤ 1 ∧
    (fw_stop_recording ⟨some "42", some "recording🎤", some 2048⟩
        ⟨false, "", 0, [], HttpResult.reqError "500 Server Error"⟩).1.recFile = none :=
  audio_consumed_once ⟨some "42", some "recording🎤", some 2048⟩
    ⟨false, "", 0, [], HttpResult.reqError "500 Server Error"⟩ "42" 2048 rfl rfl

/-- C5 counterexample: a non-2xx status outside the `raise_for_status`
range (here 303) with a JSON body yields a transcript and no error
notification, refuting "non-2xx response status reports a typed error". -/
theorem transcription_error_counterexample :
    (transcribe_audio (.response 303 (.obj (some "ok")))).1 = some "ok" ∧
    Effect.notify "Voice Typing Error" "Transcription failed: 303 error"
      ∉ (transcribe_audio (.response 303 (.obj (some "ok")))).2 := by
  constructor
  · decide
  · decide

/-- C5 (amended): if the batch transcription call times out, or the
response status is 4xx/5xx (the range `raise_for_status` raises on —
other non-2xx statuses do not raise), `transcribe_audio` returns no text
and notifies a typed human-readable error (a distinct message for timeout
and for API failure), no keystroke injection occurs anywhere in the stop
invocation, and the lock-record and sentinel cleanup still completes. -/
theorem transcription_failure_handling (s : FwState) (o : FwOracle)
    (c : String) (n : Nat)
    (hp : s.pidFile = some c) (hr : s.recFile = some n) (hn : 0 < n)
    (herr : o.http = HttpResult.timeout ∨
            ∃ st b, o.http = HttpResult.response st b ∧ 400 ≤ st ∧ st < 600) :
    (transcribe_audio o.http).1 = none ∧
    (o.http = HttpResult.timeout →
       Effect.notify "Voice Typing Error" "Transcription timed out after 30 seconds"
         ∈ (transcribe_audio o.http).2) ∧
    (∀ st b, o.http = HttpResult.response st b → 400 ≤ st → st < 600 →
       Effect.notify "Voice Typing Error"
           ("Transcription failed: " ++ toString st ++ " error")
         ∈ (transcribe_audio o.http).2) ∧
    injectCount (fw_stop_recording s o).2 = 0 ∧
    (fw_stop_recording s o).1.pidFile = none ∧
    (fw_stop_recording s o).1.i3File = none := by
  have hres : (transcribe_audio o.http).1 = none := by
    rcases herr with h | ⟨st, b, h, h4, h5⟩
    · rw [h]
      rfl
    · have hrs : raiseForStatus st = true := by
        simp only [raiseForStatus, Bool.and_eq_true, decide_eq_true_eq]
        omega
      rw [h]
      simp [transcribe_audio, hrs]
  refine ⟨hres, fun h => ?_, fun st b h h4 h5 => ?_, ?_, ?_, ?_⟩
  · rw [h]
    simp [transcribe_audio]
  · have hrs : raiseForStatus st = true := by
      simp only [raiseForStatus, Bool.and_eq_true, decide_eq_true_eq]
      omega
    rw [h]
    simp [transcribe_audio, hrs]
  · simp only [fw_stop_recording, hp]
    have h4 : injectCount [Effect.killallUSR1] = 0 := rfl
    rw [injectCount_append, injectCount_append, injectCount_cons_log,
        (fwKillRecorded_counts o.live c).2.1, h4]
    simp only [fw_stop_tail, hr]
    rw [if_pos hn, injectCount_append, (transcribe_audio_counts o.http).2.1, hres]
    simp [injectCount]
  · simp [fw_stop_recording, hp]
  · simp [fw_stop_recording, hp]

theorem transcription_failure_handling_witness :
    (transcribe_audio (HttpResult.timeout : HttpResult)).1 = none ∧
    (HttpResult.timeout = HttpResult.timeout →
       Effect.notify "Voice Typing Error" "Transcription timed out after 30 seconds"
         ∈ (transcribe_audio HttpResult.timeout).2) ∧
    (∀ st b, HttpResult.timeout = HttpResult.response st b → 400 ≤ st → st < 600 →
       Effect.notify "Voice Typing Error"
           ("Transcription failed: " ++ toString st ++ " error")
         ∈ (transcribe_audio HttpResult.timeout).2) ∧
    injectCount (fw_stop_recording ⟨some "42", some "recording🎤", some 2048⟩
        ⟨false, "", 0, [], HttpResult.timeout⟩).2 = 0 ∧
    (fw_stop_recording ⟨some "42", some "recording🎤", some 2048⟩
        ⟨false, "", 0, [], HttpResult.timeout⟩).1.pidFile = none ∧
    (fw_stop_recording ⟨some "42", some "recording🎤", some 2048⟩
        ⟨false, "", 0, [], HttpResult.timeout⟩).1.i3File = none :=
  transcription_failure_handling ⟨some "42", some "recording🎤", some 2048⟩
    ⟨false, "", 0, [], HttpResult.timeout⟩ "42" 2048 rfl rfl (by decide)
    (Or.inl rfl)

theorem injectCount_on_data (s : AsmState) (e : RtEvent) (he : ¬ e.text = "") :
    injectCount (on_data s e).2 = if e.isFinal then 1 else 0 := by
  by_cases hf : e.isFinal <;> simp [on_data, he, hf, injectCount]

theorem injectCount_processEvents (s : AsmState) (es : List RtEvent)
    (hes : ∀ x ∈ es, ¬ x.text = "") :
    injectCount (processEvents s es).2 = (es.filter (fun x => x.isFinal)).length := by
  induction es generalizing s with
  | nil => simp [processEvents, injectCount]
  | cons e es ih =>
      have he : ¬ e.text = "" := hes e (by simp)
      have hrest : ∀ x ∈ es, ¬ x.text = "" := fun x hx => hes x (by simp [hx])
      simp only [processEvents]
      rw [injectCount_append, injectCount_on_data s e he, ih _ hrest]
      by_cases hf : e.isFinal = true
      · simp [hf, List.filter_cons]
        omega
      · simp [hf, List.filter_cons]

/-- C6: for streaming transcript events with non-empty text, `on_data`
updates `current_text` for both kinds; a FINAL event is forwarded to the
injector exactly once with a line break appended, while a PARTIAL event
injects nothing; hence over any sequence of such events the injector is
called exactly once per FINAL event. -/
theorem streaming_injection_discipline (s u : AsmState) (e : RtEvent)
    (es : List RtEvent) (he : ¬ e.text = "") (hes : ∀ x ∈ es, ¬ x.text = "") :
    (on_data u e).1.current_text = e.text ∧
    (e.isFinal = true →
       (on_data u e).2 =
         [.xdotoolType (e.text ++ "\n"), .log ("Final transcript: " ++ e.text)]) ∧
    (e.isFinal = false → injectCount (on_data u e).2 = 0) ∧
    injectCount (processEvents s es).2 = (es.filter (fun x => x.isFinal)).length := by
  refine ⟨?_, fun hf => ?_, fun hf => ?_, injectCount_processEvents s es hes⟩
  · by_cases hf : e.isFinal <;> simp [on_data, he, hf]
  · simp [on_data, he, hf]
  · simp [on_data, he, hf, injectCount]

theorem streaming_injection_discipline_witness :
    (on_data ⟨none, none, "", true, true, true⟩ ⟨"hello world", true⟩).1.current_text
        = "hello world" ∧
    ((true : Bool) = true →
       (on_data ⟨none, none, "", true, true, true⟩ ⟨"hello world", true⟩).2 =
         [.xdotoolType ("hello world" ++ "\n"),
          .log ("Final transcript: " ++ "hello world")]) ∧
    ((true : Bool) = false →
       injectCount (on_data ⟨none, none, "", true, true, true⟩
           ⟨"hello world", true⟩).2 = 0) ∧
    injectCount (processEvents ⟨none, none, "", true, true, true⟩
        [⟨"hel", false⟩, ⟨"hello", false⟩, ⟨"hello world", true⟩]).2 =
      ([⟨"hel", false⟩, ⟨"hello", false⟩,
        (⟨"hello world", true⟩ : RtEvent)].filter (fun x => x.isFinal)).length :=
  streaming_injection_discipline ⟨none, none, "", true, true, true⟩
    ⟨none, none, "", true, true, true⟩ ⟨"hello world", true⟩
    [⟨"hel", false⟩, ⟨"hello", false⟩, ⟨"hello world", true⟩]
    (by decide) (by decide)

/-- C7: a stop invocation whose lock record content is the pid of a
nonexistent process, or is not a valid integer, logs a warning for the
failed signal and still completes the full teardown in both variants
(both functions are total here: every exception on this path is caught). -/
theorem stale_lock_recovery (s : FwState) (o : FwOracle)
    (t : AsmState) (p : AsmOracle) (c d : String)
    (hs : s.pidFile = some c) (ht : t.pidFile = some d)
    (hc : parsePid c = none ∨ ∃ q, parsePid c = some q ∧ q ∉ o.live)
    (hd : parsePid d = none ∨ ∃ q, parsePid d = some q ∧ q ∉ p.live) :
    (hasWarningLog (fw_stop_recording s o).2 = true ∧
     (fw_stop_recording s o).1.pidFile = none ∧
     (fw_stop_recording s o).1.i3File = none) ∧
    (hasWarningLog (asm_main t p).2 = true ∧
     (asm_main t p).1.pidFile = none ∧
     (asm_main t p).1.i3File = none) := by
  refine ⟨⟨?_, ?_, ?_⟩, ⟨?_, ?_, ?_⟩⟩
  · simp only [fw_stop_recording, hs]
    rw [hasWarningLog_append, hasWarningLog_append, hasWarningLog_cons,
        fwKillRecorded_warning o.live c hc]
    simp
  · simp [fw_stop_recording, hs]
  · simp [fw_stop_recording, hs]
  · simp only [asm_main, ht, asm_stop_invocation]
    rw [hasWarningLog_append, asmKillRecorded_warning p.live d hd]
    simp
  · simp [asm_main, ht, asm_stop_invocation, asm_stop_recording]
  · simp [asm_main, ht, asm_stop_invocation, asm_stop_recording]

theorem stale_lock_recovery_witness :
    (hasWarningLog (fw_stop_recording ⟨some "not-a-pid", some "recording🎤", none⟩
        ⟨false, "", 0, [], HttpResult.timeout⟩).2 = true ∧
     (fw_stop_recording ⟨some "not-a-pid", some "recording🎤", none⟩
        ⟨false, "", 0, [], HttpResult.timeout⟩).1.pidFile = none ∧
     (fw_stop_recording ⟨some "not-a-pid", some "recording🎤", none⟩
        ⟨false, "", 0, [], HttpResult.timeout⟩).1.i3File = none) ∧
    (hasWarningLog (asm_main ⟨some "99999", some "recording🎤", "", false, false, false⟩
        ⟨false, "", 1, [], SessionOutcome.interrupted⟩).2 = true ∧
     (asm_main ⟨some "99999", some "recording🎤", "", false, false, false⟩
        ⟨false, "", 1, [], SessionOutcome.interrupted⟩).1.pidFile = none ∧
     (asm_main ⟨some "99999", some "recording🎤", "", false, false, false⟩
        ⟨false, "", 1, [], SessionOutcome.interrupted⟩).1.i3File = none) :=
  stale_lock_recovery ⟨some "not-a-pid", some "recording🎤", none⟩
    ⟨false, "", 0, [], HttpResult.timeout⟩
    ⟨some "99999", some "recording🎤", "", false, false, false⟩
    ⟨false, "", 1, [], SessionOutcome.interrupted⟩
    "not-a-pid" "99999" rfl rfl
    (Or.inl (by decide))
    (Or.inr ⟨99999, by decide, by decide⟩)

end VoiceToggle
